import Mathlib

/-!
# Verification of the Talentfinder event-results scripts

A shallow embedding of the two scripts `talentfinder.py` and
`talentfinderpro.py`.  A pandas dataframe is modelled as a list of rows;
a cell that may hold `NaN` is an `Option ℚ` (`none` = missing), and the
numeric values (marks, points, ranks) are rationals.

The pandas operations used by the scripts are modelled as follows.

* `Series.fillna(v)` — `fillna`: replace a missing value by `v`.
* `DataFrame.sort_values(by, ascending=False)` — `sort_values_desc`:
  pandas (`nargsort` in `pandas/core/sorting.py`) reverses the key column
  and the index **before** an ascending argsort and reverses the resulting
  indexer **after**, so the two reversals cancel on tied runs; on the small
  human-curated tables this application handles, the numpy argsort is its
  stable insertion sort, so the whole operation is a stable sort into
  non-increasing key order, keeping tied keys in their pre-sort order.
  It is modelled by a stable insertion sort with the relation
  `key b ≤ key a`.  (None of the key columns produced by these scripts
  contain `NaN`, so `NaN` placement is not modelled; the keys are read
  with `fillna 0` as a total function.)
* `Series.rank(method="min", ascending=False)` — `rank_min_desc`: the rank
  of a value is `1 +` the number of column entries strictly greater than it.
* `df.groupby(key)[col].sum().reset_index()` (default `sort=True`) —
  `groupby_sum`: one output row per distinct key, keys in ascending order,
  value = sum of the column over the rows of the group.
* `pd.merge(left, right, on=k, how="right")` — `pd_merge_right`: for each
  row of the right frame in order, one output row per left row with an
  equal key, or a single output row with `NaN` left-cells when the key has
  no match in the left frame.
-/

/-- pandas `Series.fillna`: a missing cell is replaced by `v`. -/
def fillna (x : Option ℚ) (v : ℚ) : ℚ :=
  x.getD v

/-- pandas `DataFrame.sort_values(by=key, ascending=False)`: a stable sort
into non-increasing key order — ties keep their pre-sort order, because the
reversal pandas applies before its ascending argsort cancels against the
reversal of the indexer afterwards (see module doc-string). -/
def sort_values_desc {α : Type} (key : α → ℚ) (df : List α) : List α :=
  List.insertionSort (fun a b => key b ≤ key a) df

/-- pandas `Series.rank(method="min", ascending=False)` of the value `t`
inside the column `col`: `1 +` the number of entries strictly above `t`. -/
def rank_min_desc (col : List ℚ) (t : ℚ) : ℚ :=
  1 + ((col.filter fun u => t < u).length : ℚ)

namespace Talentfinder

/-- One row of the marks-entry dataframe of `talentfinder.py`.  The columns
`Chest No, mark1, mark2, mark3, total marks, Rank` are the required columns
of `main` (line 60); `extra` collects any further columns of the uploaded
file, as (column name, cell) pairs. -/
structure MarksRow where
  chestNo : Nat
  mark1 : Option ℚ
  mark2 : Option ℚ
  mark3 : Option ℚ
  totalMarks : Option ℚ
  rank : Option ℚ
  extra : List (String × String)

/-- `calculate_total_and_rank(df)` (`talentfinder.py` lines 7–17).

Line 9 assigns the `total marks` column on the dataframe object of the caller in
place; line 12 rebinds the local name `df` to a sorted **copy**, and line 15
adds the `Rank` column to that copy only.  The model therefore returns the
pair (the dataframe of the caller as it is after the call, the returned dataframe). -/
def calculate_total_and_rank (df : List MarksRow) : List MarksRow × List MarksRow :=
  let df9 := df.map fun r =>
    { r with totalMarks := some (fillna r.mark1 0 + fillna r.mark2 0 + fillna r.mark3 0) }
  let df12 := sort_values_desc (fun r => fillna r.totalMarks 0) df9
  let col := df12.map fun r => fillna r.totalMarks 0
  let df15 := df12.map fun r => { r with rank := some (rank_min_desc col (fillna r.totalMarks 0)) }
  (df9, df15)

/-- One row of the master-data dataframe: the join key `Chest No` plus the
descriptive participant columns, kept abstractly as (column name, cell)
pairs. -/
structure MasterRow where
  chestNo : Nat
  details : List (String × String)

/-- The marks-entry dataframe together with its column-name list (the guard
of `merge_with_master_data` inspects `marks_df.columns`). -/
structure MarksTable where
  columns : List String
  rows : List MarksRow

/-- The master-data dataframe together with its column-name list. -/
structure MasterTable where
  columns : List String
  rows : List MasterRow

/-- One row of `pd.merge(master_df, marks_df[[...]], on="Chest No",
how="right")`: the key, the master-data cells (`none` models the `NaN`-filled
cells produced when the chest number has no match in the master table), and
the six selected marks columns. -/
structure MergedRow where
  chestNo : Nat
  master : Option (List (String × String))
  mark1 : Option ℚ
  mark2 : Option ℚ
  mark3 : Option ℚ
  totalMarks : Option ℚ
  rank : Option ℚ

/-- `pd.merge(master, marks, on="Chest No", how="right")` (see the module
doc-string): each marks row in order, joined to every master row with an
equal chest number, or to `NaN` master cells when there is none. -/
def pd_merge_right (master : List MasterRow) (marks : List MarksRow) : List MergedRow :=
  marks.flatMap fun m =>
    if (master.filter fun r => r.chestNo = m.chestNo).isEmpty then
      [{ chestNo := m.chestNo, master := none, mark1 := m.mark1, mark2 := m.mark2,
         mark3 := m.mark3, totalMarks := m.totalMarks, rank := m.rank }]
    else
      (master.filter fun r => r.chestNo = m.chestNo).map fun r =>
        { chestNo := m.chestNo, master := some r.details, mark1 := m.mark1, mark2 := m.mark2,
          mark3 := m.mark3, totalMarks := m.totalMarks, rank := m.rank }

/-- `merge_with_master_data(marks_df, master_df)` (`talentfinder.py` lines
20–35): when `"Chest No"` is a column of both frames, the right join on it,
sorted by `total marks` descending; otherwise `st.error(...)` is shown and
`None` is returned (modelled by `none`). -/
def merge_with_master_data (marks_df : MarksTable) (master_df : MasterTable) :
    Option (List MergedRow) :=
  if "Chest No" ∈ marks_df.columns ∧ "Chest No" ∈ master_df.columns then
    some (sort_values_desc (fun r => fillna r.totalMarks 0)
      (pd_merge_right master_df.rows marks_df.rows))
  else
    none

/-- The dataframe that the Download Result action serializes: the plain
result table when no master file is uploaded, the merged table otherwise. -/
inductive ResultTable where
  | plain (rows : List MarksRow) : ResultTable
  | merged (rows : List MergedRow) : ResultTable

/-- Outcome of one press of the Download Result button. -/
inductive DownloadOutcome where
  | errorEmptyEventName : DownloadOutcome
  | errorMerge : DownloadOutcome
  | file (fileName : String) (contents : ResultTable) : DownloadOutcome

/-- The Download Result branch of `main` (`talentfinder.py` lines 102–134):
an empty event name is rejected first (`if not event_name`, lines 103–105);
otherwise the totals and ranks are recomputed, the optional master file is
merged in (aborting when the merge reports an error), and the file
`f"{event_name}_results.xlsx"` is produced. -/
def downloadResult (event_name : String) (edited_df : MarksTable)
    (master_df : Option MasterTable) : DownloadOutcome :=
  if event_name = "" then
    DownloadOutcome.errorEmptyEventName
  else
    let result_df := (calculate_total_and_rank edited_df.rows).2
    match master_df with
    | some master =>
      match merge_with_master_data { edited_df with rows := result_df } master with
      | none => DownloadOutcome.errorMerge
      | some final_df =>
        DownloadOutcome.file (event_name ++ "_results.xlsx") (ResultTable.merged final_df)
    | none =>
      DownloadOutcome.file (event_name ++ "_results.xlsx") (ResultTable.plain result_df)

/-- The `total marks` key of a row, as read by lines 12 and 15. -/
def totalKey (r : MarksRow) : ℚ :=
  fillna r.totalMarks 0

/-- A single-row table used to instantiate the universally quantified
theorems about `calculate_total_and_rank`. -/
def ex1 : List MarksRow :=
  [⟨1, some 60, some 70, some 80, none, none, []⟩]

/-- The two-row example of the specification: score triples
`{60, 70, 80}` and `{90, 0, 0}`. -/
def ex8 : List MarksRow :=
  [⟨1, some 60, some 70, some 80, none, none, []⟩,
   ⟨2, some 90, some 0, some 0, none, none, []⟩]

/-- One marks row with chest number 1, one master row with the unmatched
chest number 2: the merge keeps the scored participant and drops the
unmatched roster row. -/
def exMarksT : MarksTable :=
  ⟨["Chest No", "mark1", "mark2", "mark3", "total marks", "Rank"],
   [⟨1, some 60, some 70, some 80, some 210, some 1, []⟩]⟩

/-- The roster table of the example: a single participant with the
unmatched chest number 2. -/
def exMasterT : MasterTable :=
  ⟨["Chest No", "Name"], [⟨2, [("Name", "Zed")]⟩]⟩

/-- The merged output of the example: the scored participant, with
`NaN`-filled master cells. -/
def exMergedOut : List MergedRow :=
  [⟨1, none, some 60, some 70, some 80, some 210, some 1⟩]

end Talentfinder

namespace Talentfinderpro

/-- One row of the competition dataframe of `talentfinderpro.py`, with the
columns used by `get_top_performers`. -/
structure ProRow where
  idNo : Nat
  studentName : String
  church : String
  sectionName : String
  region : String
  points : ℚ

/-- pandas `df.groupby(key)["Points"].sum().reset_index()` with the default
`sort=True`: one row per distinct key, keys listed in ascending `keyLE`
order, value = sum of `Points` over the rows of the group. -/
def groupby_sum {κ : Type} (keyLE : κ → κ → Prop) [DecidableRel keyLE] [DecidableEq κ]
    (key : ProRow → κ) (df : List ProRow) : List (κ × ℚ) :=
  (List.insertionSort keyLE (df.map key).dedup).map fun k =>
    (k, ((df.filter fun r => key r = k).map ProRow.points).sum)

/-- The five-column group key of the `"Student"` branch. -/
def studentKey (r : ProRow) : Nat × String × String × String × String :=
  (r.idNo, r.studentName, r.church, r.sectionName, r.region)

/-- Lexicographic order on the five-column student key, the order in which
pandas lists the groups of a multi-key `groupby`. -/
def studentKeyLE (a b : Nat × String × String × String × String) : Prop :=
  a.1 < b.1 ∨ (a.1 = b.1 ∧ (a.2.1 < b.2.1 ∨ (a.2.1 = b.2.1 ∧
    (a.2.2.1 < b.2.2.1 ∨ (a.2.2.1 = b.2.2.1 ∧ (a.2.2.2.1 < b.2.2.2.1 ∨
      (a.2.2.2.1 = b.2.2.2.1 ∧ a.2.2.2.2 ≤ b.2.2.2.2)))))))

instance : DecidableRel studentKeyLE := fun a b => by
  unfold studentKeyLE; infer_instance

/-- One row of the table returned by `get_top_performers`: the `"Student"`
branch keeps the five group-key columns, the other branches a single key
column, and every branch carries the summed `Points`. -/
inductive TopRow where
  | studentRow (idNo : Nat) (studentName church sectionName region : String)
      (points : ℚ) : TopRow
  | churchRow (church : String) (points : ℚ) : TopRow
  | sectionRow (sectionName : String) (points : ℚ) : TopRow
  | regionRow (region : String) (points : ℚ) : TopRow

/-- The `Points` column of a `get_top_performers` output row. -/
def TopRow.points : TopRow → ℚ
  | TopRow.studentRow _ _ _ _ _ p => p
  | TopRow.churchRow _ p => p
  | TopRow.sectionRow _ p => p
  | TopRow.regionRow _ p => p

/-- `get_top_performers(df, category, n)` (`talentfinderpro.py` lines
13–29): group by the key of the category, sum `Points`, sort descending, keep the
first `n` rows.  A category that matches none of the four branches falls off
the end of the `if/elif` chain, which in Python returns `None` (`none`
here). -/
def get_top_performers (df : List ProRow) (category : String) (n : Nat) :
    Option (List TopRow) :=
  if category = "Student" then
    some (((sort_values_desc Prod.snd (groupby_sum studentKeyLE studentKey df)).take n).map
      fun p => TopRow.studentRow p.1.1 p.1.2.1 p.1.2.2.1 p.1.2.2.2.1 p.1.2.2.2.2 p.2)
  else if category = "Church" then
    some (((sort_values_desc Prod.snd
        (groupby_sum (fun a b : String => a ≤ b) ProRow.church df)).take n).map
      fun p => TopRow.churchRow p.1 p.2)
  else if category = "Section" then
    some (((sort_values_desc Prod.snd
        (groupby_sum (fun a b : String => a ≤ b) ProRow.sectionName df)).take n).map
      fun p => TopRow.sectionRow p.1 p.2)
  else if category = "Region" then
    some (((sort_values_desc Prod.snd
        (groupby_sum (fun a b : String => a ≤ b) ProRow.region df)).take n).map
      fun p => TopRow.regionRow p.1 p.2)
  else
    none

/-- Three churches in input order `B, A, C`, every row worth 1 point. -/
def ex3 : List ProRow :=
  [⟨1, "x", "B", "s", "r", 1⟩, ⟨2, "y", "A", "s", "r", 1⟩, ⟨3, "z", "C", "s", "r", 1⟩]

/-- A single participant with 5 points, to instantiate the theorem about the
multi-column grouping. -/
def ex6 : List ProRow :=
  [⟨1, "n", "c", "s", "r", 5⟩]

end Talentfinderpro

/-! ## Properties of the pandas sorting model -/

theorem mem_sort_values_desc {α : Type} {key : α → ℚ} {df : List α} {a : α} :
    a ∈ sort_values_desc key df ↔ a ∈ df := by
  unfold sort_values_desc
  rw [List.mem_insertionSort]

theorem length_sort_values_desc {α : Type} (key : α → ℚ) (df : List α) :
    (sort_values_desc key df).length = df.length := by
  unfold sort_values_desc
  rw [List.length_insertionSort]

theorem sort_values_desc_pairwise {α : Type} (key : α → ℚ) (df : List α) :
    (sort_values_desc key df).Pairwise fun a b => key b ≤ key a := by
  unfold sort_values_desc
  exact @List.sorted_insertionSort α (fun a b => key b ≤ key a) _
    ⟨fun a b => le_total (key b) (key a)⟩
    ⟨fun a b c hab hbc => le_trans hbc hab⟩ df

theorem sort_values_desc_perm {α : Type} (key : α → ℚ) (df : List α) :
    (sort_values_desc key df).Perm df := by
  unfold sort_values_desc
  exact List.perm_insertionSort _ df

namespace Talentfinder

/-! ## `calculate_total_and_rank` -/

theorem result_eq (df : List MarksRow) :
    (calculate_total_and_rank df).2 =
      (sort_values_desc totalKey ((calculate_total_and_rank df).1)).map fun r =>
        { r with rank := some (rank_min_desc
            ((sort_values_desc totalKey ((calculate_total_and_rank df).1)).map totalKey)
            (totalKey r)) } :=
  rfl

/-- Updating `Rank` does not change the `total marks` column, so the ranking
column used at line 15 is exactly the `total marks` column of the returned
dataframe. -/
theorem result_totals (df : List MarksRow) :
    ((calculate_total_and_rank df).2).map totalKey =
      (sort_values_desc totalKey ((calculate_total_and_rank df).1)).map totalKey := by
  rw [result_eq, List.map_map]
  rfl

theorem mem_result (df : List MarksRow) {r : MarksRow}
    (hr : r ∈ (calculate_total_and_rank df).2) :
    r.rank = some (rank_min_desc (((calculate_total_and_rank df).2).map totalKey)
      (totalKey r)) := by
  rw [result_totals]
  rw [result_eq] at hr
  obtain ⟨s, _, rfl⟩ := List.mem_map.mp hr
  rfl

theorem rank_count (df : List MarksRow) {r : MarksRow}
    (hr : r ∈ (calculate_total_and_rank df).2) :
    r.rank = some (1 + (((calculate_total_and_rank df).2.filter
      fun s => totalKey r < totalKey s).length : ℚ)) := by
  rw [mem_result df hr]
  unfold rank_min_desc
  rw [← List.length_map _ totalKey, List.filter_map]
  rfl

/-- C1: `calculate_total_and_rank` assigns ranks by competition ranking:
the rank of every row is `1 +` the number of rows with a strictly greater total,
rows with equal totals share a rank, a strictly greater total never gets a
strictly worse (larger) rank, and a row whose total is maximal gets rank 1. -/
theorem calculate_total_and_rank_rank_spec (df : List MarksRow) :
    (∀ r ∈ (calculate_total_and_rank df).2,
      r.rank = some (1 + (((calculate_total_and_rank df).2.filter
        fun s => totalKey r < totalKey s).length : ℚ))) ∧
    (∀ r ∈ (calculate_total_and_rank df).2, ∀ s ∈ (calculate_total_and_rank df).2,
      totalKey r = totalKey s → r.rank = s.rank) ∧
    (∀ r ∈ (calculate_total_and_rank df).2, ∀ s ∈ (calculate_total_and_rank df).2,
      totalKey s < totalKey r →
        ∃ a b : ℚ, r.rank = some a ∧ s.rank = some b ∧ a ≤ b) ∧
    (∀ r ∈ (calculate_total_and_rank df).2,
      (∀ s ∈ (calculate_total_and_rank df).2, totalKey s ≤ totalKey r) →
        r.rank = some 1) := by
  refine ⟨fun r hr => rank_count df hr, fun r hr s hs h => ?_, fun r hr s hs h => ?_,
    fun r hr hmax => ?_⟩
  · rw [rank_count df hr, rank_count df hs, h]
  · refine ⟨_, _, rank_count df hr, rank_count df hs, ?_⟩
    have hsub : ((calculate_total_and_rank df).2.filter fun u => totalKey r < totalKey u).Sublist
        ((calculate_total_and_rank df).2.filter fun u => totalKey s < totalKey u) := by
      refine List.monotone_filter_right _ fun u hu => ?_
      simp only [decide_eq_true_eq] at hu ⊢
      exact lt_trans h hu
    have := hsub.length_le
    have hcast : (((calculate_total_and_rank df).2.filter
        fun u => totalKey r < totalKey u).length : ℚ) ≤
        (((calculate_total_and_rank df).2.filter
          fun u => totalKey s < totalKey u).length : ℚ) := by
      exact_mod_cast this
    linarith
  · rw [rank_count df hr]
    have hnil : ((calculate_total_and_rank df).2.filter
        fun s => totalKey r < totalKey s) = [] := by
      rw [List.filter_eq_nil_iff]
      intro s hs
      simp only [decide_eq_true_eq, not_lt]
      exact hmax s hs
    rw [hnil]
    norm_num

/-- C2: in the table returned by `calculate_total_and_rank`, the `total marks` cell of every row is the sum of its three mark cells with a missing mark
counted as 0. -/
theorem calculate_total_and_rank_total_spec (df : List MarksRow) :
    ∀ r ∈ (calculate_total_and_rank df).2,
      r.totalMarks = some (fillna r.mark1 0 + fillna r.mark2 0 + fillna r.mark3 0) := by
  intro r hr
  rw [result_eq] at hr
  obtain ⟨s, hs, rfl⟩ := List.mem_map.mp hr
  rw [mem_sort_values_desc] at hs
  have h1 : (calculate_total_and_rank df).1 = df.map fun t =>
      { t with totalMarks := some (fillna t.mark1 0 + fillna t.mark2 0 + fillna t.mark3 0) } :=
    rfl
  rw [h1] at hs
  obtain ⟨t, _, rfl⟩ := List.mem_map.mp hs
  rfl

/-- C10: `calculate_total_and_rank` mutates its argument.  After the call the
dataframe of the caller is its old self with only the `total marks` column
overwritten by the computed sums (same rows, same order, every other column
unchanged), while the descending sort order and the `Rank` column exist only
in the returned dataframe. -/
theorem calculate_total_and_rank_frame (df : List MarksRow) :
    (calculate_total_and_rank df).1 = (df.map fun r =>
      { r with totalMarks := some (fillna r.mark1 0 + fillna r.mark2 0 + fillna r.mark3 0) }) ∧
    ((calculate_total_and_rank df).2).Pairwise (fun a b => totalKey b ≤ totalKey a) ∧
    ∀ r ∈ (calculate_total_and_rank df).2, r.rank.isSome = true := by
  refine ⟨rfl, ?_, fun r hr => by rw [mem_result df hr]; rfl⟩
  rw [result_eq, List.pairwise_map]
  exact sort_values_desc_pairwise totalKey _

theorem calculate_total_and_rank_rank_spec_witness :
    (⟨1, some 60, some 70, some 80, some 210, some 1, []⟩ : MarksRow).rank = some 1 :=
  (calculate_total_and_rank_rank_spec ex1).2.2.2
    ⟨1, some 60, some 70, some 80, some 210, some 1, []⟩
    (by norm_num [calculate_total_and_rank, ex1, sort_values_desc, List.insertionSort,
      List.orderedInsert, fillna, rank_min_desc, List.filter])
    (by
      intro s hs
      norm_num [calculate_total_and_rank, ex1, sort_values_desc, List.insertionSort,
        List.orderedInsert, fillna, rank_min_desc, List.filter] at hs
      subst hs
      norm_num [totalKey, fillna])

theorem calculate_total_and_rank_total_spec_witness :
    (⟨1, some 60, some 70, some 80, some 210, some 1, []⟩ : MarksRow).totalMarks =
      some (fillna (some 60) 0 + fillna (some 70) 0 + fillna (some 80) 0) :=
  calculate_total_and_rank_total_spec ex1
    ⟨1, some 60, some 70, some 80, some 210, some 1, []⟩
    (by norm_num [calculate_total_and_rank, ex1, sort_values_desc, List.insertionSort,
      List.orderedInsert, fillna, rank_min_desc, List.filter])

theorem calculate_total_and_rank_frame_witness :
    (⟨1, some 60, some 70, some 80, some 210, some 1, []⟩ : MarksRow).rank.isSome = true :=
  (calculate_total_and_rank_frame ex1).2.2
    ⟨1, some 60, some 70, some 80, some 210, some 1, []⟩
    (by norm_num [calculate_total_and_rank, ex1, sort_values_desc, List.insertionSort,
      List.orderedInsert, fillna, rank_min_desc, List.filter])

/-! ## `merge_with_master_data` and the Download Result action -/

/-- C4: the merge is rejected (`none`, after `st.error`) whenever the
`"Chest No"` column is absent from either uploaded table, and it produces a
merged table whenever the column is present in both. -/
theorem merge_with_master_data_guard (marks : MarksTable) (master : MasterTable) :
    (("Chest No" ∉ marks.columns ∨ "Chest No" ∉ master.columns) →
      merge_with_master_data marks master = none) ∧
    ("Chest No" ∈ marks.columns → "Chest No" ∈ master.columns →
      ∃ out, merge_with_master_data marks master = some out) := by
  constructor
  · intro h
    unfold merge_with_master_data
    rw [if_neg]
    rintro ⟨h1, h2⟩
    rcases h with h | h
    · exact h h1
    · exact h h2
  · intro h1 h2
    exact ⟨_, by unfold merge_with_master_data; rw [if_pos ⟨h1, h2⟩]⟩

theorem merge_with_master_data_guard_witness :
    merge_with_master_data ⟨["Chest No"], []⟩ ⟨["Name"], []⟩ = none :=
  (merge_with_master_data_guard ⟨["Chest No"], []⟩ ⟨["Name"], []⟩).1
    (Or.inr (by simp))

/-- C5: when the merge succeeds it is a right join of the master table with
the marks table on `"Chest No"`: every marks row reappears in the output,
with all its marks columns, even when its chest number has no match in the
master table; and every output row stems from a marks row, so a master row
whose chest number is absent from the marks table contributes no output
row. -/
theorem merge_with_master_data_right_join (marks : MarksTable) (master : MasterTable)
    (out : List MergedRow) (h : merge_with_master_data marks master = some out) :
    (∀ m ∈ marks.rows, ∃ row ∈ out, row.chestNo = m.chestNo ∧ row.mark1 = m.mark1 ∧
      row.mark2 = m.mark2 ∧ row.mark3 = m.mark3 ∧ row.totalMarks = m.totalMarks ∧
      row.rank = m.rank) ∧
    (∀ row ∈ out, ∃ m ∈ marks.rows, row.chestNo = m.chestNo) := by
  unfold merge_with_master_data at h
  by_cases hc : "Chest No" ∈ marks.columns ∧ "Chest No" ∈ master.columns
  · rw [if_pos hc, Option.some.injEq] at h
    subst h
    constructor
    · intro m hm
      by_cases hms : (master.rows.filter fun r => r.chestNo = m.chestNo).isEmpty
      · refine ⟨⟨m.chestNo, none, m.mark1, m.mark2, m.mark3, m.totalMarks, m.rank⟩, ?_,
          rfl, rfl, rfl, rfl, rfl, rfl⟩
        rw [mem_sort_values_desc]
        unfold pd_merge_right
        refine List.mem_flatMap.mpr ⟨m, hm, ?_⟩
        rw [if_pos hms]
        exact List.mem_singleton.mpr rfl
      · obtain ⟨r, hr⟩ := List.exists_mem_of_ne_nil
          (master.rows.filter fun r => r.chestNo = m.chestNo)
          (fun hnil => hms (by rw [hnil]; rfl))
        refine ⟨⟨m.chestNo, some r.details, m.mark1, m.mark2, m.mark3, m.totalMarks, m.rank⟩,
          ?_, rfl, rfl, rfl, rfl, rfl, rfl⟩
        rw [mem_sort_values_desc]
        unfold pd_merge_right
        refine List.mem_flatMap.mpr ⟨m, hm, ?_⟩
        rw [if_neg hms]
        exact List.mem_map.mpr ⟨r, hr, rfl⟩
    · intro row hrow
      rw [mem_sort_values_desc] at hrow
      unfold pd_merge_right at hrow
      obtain ⟨m, hm, hrow⟩ := List.mem_flatMap.mp hrow
      refine ⟨m, hm, ?_⟩
      by_cases hms : (master.rows.filter fun r => r.chestNo = m.chestNo).isEmpty
      · rw [if_pos hms] at hrow
        rw [List.mem_singleton.mp hrow]
      · rw [if_neg hms] at hrow
        obtain ⟨r, _, rfl⟩ := List.mem_map.mp hrow
        rfl
  · rw [if_neg hc] at h
    exact absurd h (by simp)

theorem merge_with_master_data_right_join_witness :
    (∀ m ∈ exMarksT.rows, ∃ row ∈ exMergedOut, row.chestNo = m.chestNo ∧
      row.mark1 = m.mark1 ∧ row.mark2 = m.mark2 ∧ row.mark3 = m.mark3 ∧
      row.totalMarks = m.totalMarks ∧ row.rank = m.rank) ∧
    (∀ row ∈ exMergedOut, ∃ m ∈ exMarksT.rows, row.chestNo = m.chestNo) :=
  merge_with_master_data_right_join exMarksT exMasterT exMergedOut
    (by norm_num [merge_with_master_data, exMarksT, exMasterT, exMergedOut,
      pd_merge_right, sort_values_desc, List.insertionSort, List.orderedInsert,
      fillna, List.filter, List.flatMap])

/-- C7: pressing Download Result with an empty event-name field reports the
error and ends the action: no merge is attempted and no file is produced. -/
theorem downloadResult_empty_event_name (event_name : String) (edited_df : MarksTable)
    (master_df : Option MasterTable) (h : event_name = "") :
    downloadResult event_name edited_df master_df = DownloadOutcome.errorEmptyEventName := by
  unfold downloadResult
  rw [if_pos h]

theorem downloadResult_empty_event_name_witness :
    downloadResult "" exMarksT (some exMasterT) = DownloadOutcome.errorEmptyEventName :=
  downloadResult_empty_event_name "" exMarksT (some exMasterT) rfl

/-- C8: on the two-row table with score triples `{60,70,80}` and `{90,0,0}`,
`calculate_total_and_rank` returns totals `210` and `90` with ranks `1`
and `2` on the respective rows (sorted with the 210 row first). -/
theorem calculate_total_and_rank_example :
    (calculate_total_and_rank ex8).2 =
      [⟨1, some 60, some 70, some 80, some 210, some 1, []⟩,
       ⟨2, some 90, some 0, some 0, some 90, some 2, []⟩] := by
  norm_num [calculate_total_and_rank, ex8, sort_values_desc, List.insertionSort,
    List.orderedInsert, fillna, rank_min_desc, List.filter]

end Talentfinder

namespace Talentfinderpro

/-! ## `get_top_performers` -/

theorem topn_le_sorted {κ : Type} (l : List (κ × ℚ)) (n : Nat) (F : κ × ℚ → TopRow)
    (hF : ∀ p, (F p).points = p.2) :
    (((sort_values_desc Prod.snd l).take n).map F).length ≤ n ∧
    (((sort_values_desc Prod.snd l).take n).map F).Pairwise
      (fun a b => b.points ≤ a.points) := by
  constructor
  · rw [List.length_map]
    exact List.length_take_le n _
  · rw [List.pairwise_map]
    have h2 := List.Pairwise.sublist (List.take_sublist n _)
      (sort_values_desc_pairwise Prod.snd l)
    exact h2.imp fun hab => by rw [hF, hF]; exact hab

/-- C3 (amended): for every input table and category, a `get_top_performers`
result has at most 5 rows and is sorted non-increasingly by the summed
`Points`; the tie order is a deterministic function of the table — tied
groups stay in the ascending group-key order in which `groupby` lists them,
which the stable descending sort preserves — but it is **not** the original
row order of the input. -/
theorem get_top_performers_le_five_sorted (df : List ProRow) (category : String)
    (out : List TopRow) (h : get_top_performers df category 5 = some out) :
    out.length ≤ 5 ∧ out.Pairwise (fun a b => b.points ≤ a.points) := by
  unfold get_top_performers at h
  split_ifs at h
  · rw [Option.some.injEq] at h
    subst h
    exact topn_le_sorted _ 5 _ fun p => rfl
  · rw [Option.some.injEq] at h
    subst h
    exact topn_le_sorted _ 5 _ fun p => rfl
  · rw [Option.some.injEq] at h
    subst h
    exact topn_le_sorted _ 5 _ fun p => rfl
  · rw [Option.some.injEq] at h
    subst h
    exact topn_le_sorted _ 5 _ fun p => rfl

theorem get_top_performers_le_five_sorted_witness :
    ([TopRow.churchRow "A" 1, TopRow.churchRow "B" 1, TopRow.churchRow "C" 1].length ≤ 5) ∧
    ([TopRow.churchRow "A" 1, TopRow.churchRow "B" 1,
      TopRow.churchRow "C" 1].Pairwise fun a b => b.points ≤ a.points) :=
  get_top_performers_le_five_sorted ex3 "Church"
    [TopRow.churchRow "A" 1, TopRow.churchRow "B" 1, TopRow.churchRow "C" 1]
    (by norm_num +decide [get_top_performers, ex3, groupby_sum, sort_values_desc,
      List.insertionSort, List.orderedInsert, List.dedup, List.pwFilter, List.filter])

/-- C3 (counterexample to the tie-break clause): on churches uploaded in the
row order `B, A, C`, all with equal summed points, the function returns the
groups in the order `A, B, C` — not in the original row order `B, A, C`:
`groupby` lists the groups in ascending key order, and the stable descending
sort keeps the tied block in that order, so the tie order is the alphabetical
group-key order, not the row order of the input. -/
theorem get_top_performers_tie_order_counterexample :
    get_top_performers ex3 "Church" 5 =
      some [TopRow.churchRow "A" 1, TopRow.churchRow "B" 1, TopRow.churchRow "C" 1] ∧
    get_top_performers ex3 "Church" 5 ≠
      some [TopRow.churchRow "B" 1, TopRow.churchRow "A" 1, TopRow.churchRow "C" 1] := by
  have h : get_top_performers ex3 "Church" 5 =
      some [TopRow.churchRow "A" 1, TopRow.churchRow "B" 1, TopRow.churchRow "C" 1] := by
    norm_num +decide [get_top_performers, ex3, groupby_sum, sort_values_desc,
      List.insertionSort, List.orderedInsert, List.dedup, List.pwFilter, List.filter]
  refine ⟨h, ?_⟩
  rw [h]
  simp

/-- C9: a category string matching none of the four branches makes
`get_top_performers` fall through its `if/elif` chain and return `None`,
with no error raised. -/
theorem get_top_performers_unknown_category (df : List ProRow) (category : String)
    (n : Nat) (h1 : category ≠ "Student") (h2 : category ≠ "Church")
    (h3 : category ≠ "Section") (h4 : category ≠ "Region") :
    get_top_performers df category n = none := by
  unfold get_top_performers
  rw [if_neg h1, if_neg h2, if_neg h3, if_neg h4]

theorem get_top_performers_unknown_category_witness :
    get_top_performers ex3 "Total" 5 = none :=
  get_top_performers_unknown_category ex3 "Total" 5
    (by decide) (by decide) (by decide) (by decide)

/-- C6: when the descriptive columns are constant on the rows of each participant,
every row of the `"Student"` grouping — its five-column group key with its
`Points` sum — also appears, keyed by `ID No` alone, in the grouping by
`ID No`: the multi-column group key changes nothing about the sums. -/
theorem student_group_sums_by_id (df : List ProRow)
    (hconst : ∀ r ∈ df, ∀ s ∈ df, r.idNo = s.idNo →
      r.studentName = s.studentName ∧ r.church = s.church ∧
      r.sectionName = s.sectionName ∧ r.region = s.region) :
    ∀ p ∈ groupby_sum studentKeyLE studentKey df,
      (p.1.1, p.2) ∈ groupby_sum (fun a b : Nat => a ≤ b) ProRow.idNo df := by
  intro p hp
  unfold groupby_sum at hp ⊢
  obtain ⟨k, hk, rfl⟩ := List.mem_map.mp hp
  rw [List.mem_insertionSort, List.mem_dedup] at hk
  obtain ⟨r, hr, rfl⟩ := List.mem_map.mp hk
  refine List.mem_map.mpr ⟨r.idNo, ?_, ?_⟩
  · rw [List.mem_insertionSort, List.mem_dedup]
    exact List.mem_map.mpr ⟨r, hr, rfl⟩
  · have hfilter : (df.filter fun s => s.idNo = r.idNo) =
        (df.filter fun s => studentKey s = studentKey r) := by
      refine List.filter_congr fun s hs => ?_
      rcases Decidable.em (s.idNo = r.idNo) with hid | hid
      · obtain ⟨hn, hc, hsec, hreg⟩ := hconst s hs r hr hid
        simp [studentKey, hid, hn, hc, hsec, hreg]
      · have : ¬studentKey s = studentKey r := by
          simp only [studentKey, Prod.mk.injEq, not_and]
          intro h
          exact absurd h hid
        simp [hid, this]
    rw [hfilter]
    rfl

theorem student_group_sums_by_id_witness :
    ((1 : Nat), (5 : ℚ)) ∈ groupby_sum (fun a b : Nat => a ≤ b) ProRow.idNo ex6 :=
  student_group_sums_by_id ex6
    (by
      intro r hr s hs _
      rw [ex6, List.mem_singleton] at hr hs
      subst hr
      subst hs
      exact ⟨rfl, rfl, rfl, rfl⟩)
    ((1, "n", "c", "s", "r"), 5)
    (by norm_num +decide [groupby_sum, ex6, studentKey, List.insertionSort,
      List.orderedInsert, List.dedup, List.pwFilter, List.filter])

end Talentfinderpro
